import Mathlib

/-!
Shallow embedding of `src/train.py` from the channel_pruning_lasso
repository (AMC fine-tune script), together with proofs about it.

Conventions of the embedding:
* floating-point quantities that only ever undergo exact rational
  arithmetic in the claims (accuracies) are modelled as `ℚ`;
* the learning-rate computation involves `math.cos`, so learning rates
  are modelled as `ℝ`;
* randomness (the Beta draw and the random permutation in
  `mixup_data`) is passed in as explicit parameters;
* the file system touched by `save_checkpoint` is modelled as the pair
  of files the function can write (`ckpt.pth.tar` / `ckpt.best.pth.tar`);
* `raise NotImplementedError` is modelled as `Except.error ()`.
-/

/-- A model state dict (`net.state_dict()`): named tensors, each tensor
modelled as a rational value. Only identity of the weights matters for the
claims, not tensor shapes. -/
def StateDict : Type := List (String × ℚ)

instance : DecidableEq StateDict := by
  unfold StateDict
  infer_instance

/-- One optimizer parameter group; `train.py` builds
`optim.SGD(net.parameters(), lr=args.lr, momentum=0.9, weight_decay=args.wd)`,
so a group carries a learning rate, a momentum and a weight decay. -/
structure ParamGroup where
  lr : ℝ
  momentum : ℝ
  weight_decay : ℝ

/-- The optimizer: a list of parameter groups (`optimizer.param_groups`). -/
structure Optimizer where
  param_groups : List ParamGroup

/-- Modelled from the spec: the network built by `models.vgg.vgg16_bn` /
`vgg16_bn_x` lives outside the given sources; only which constructor was
selected matters for the claims, so a net is just its architecture tag. -/
structure Net where
  arch : String

/-- `get_model` (train.py lines 50-58): dispatch on `args.model`;
anything outside the two supported names raises `NotImplementedError`.
The `.cuda()` device move is irrelevant to the claims and dropped. -/
def get_model (model : String) : Except Unit Net :=
  if model = "vgg16_bn" then Except.ok { arch := "vgg16_bn" }
  else if model = "vgg16_bn_x" then Except.ok { arch := "vgg16_bn_x" }
  else Except.error ()

/-- Overwrite the learning rate of every parameter group:
`for param_group in optimizer.param_groups: param_group['lr'] = lr`. -/
def setLR (opt : Optimizer) (lr : ℝ) : Optimizer :=
  { param_groups := opt.param_groups.map fun g => { g with lr := lr } }

/-- `adjust_learning_rate` (train.py lines 179-193): compute the epoch's
learning rate under the selected policy (`args.lr_type`), write it into
every parameter group, and return it; an unsupported policy raises
`NotImplementedError`.  `lr0` is `args.lr`, `n_epoch` is `args.n_epoch`. -/
noncomputable def adjust_learning_rate (lr_type : String) (lr0 : ℝ) (n_epoch : ℕ)
    (optimizer : Optimizer) (epoch : ℕ) : Except Unit (Optimizer × ℝ) :=
  if lr_type = "cos" then
    let lr := 0.5 * lr0 * (1 + Real.cos (Real.pi * epoch / n_epoch))
    Except.ok (setLR optimizer lr, lr)
  else if lr_type = "exp" then
    let step : ℕ := 1
    let decay : ℝ := 0.96
    let lr := lr0 * decay ^ (epoch / step)
    Except.ok (setLR optimizer lr, lr)
  else if lr_type = "fixed" then
    let lr := lr0
    Except.ok (setLR optimizer lr, lr)
  else
    Except.error ()

/-- Extract the learning rate an `adjust_learning_rate` call returned
(0 when the call raised). -/
def lrValue : Except Unit (Optimizer × ℝ) → ℝ
  | Except.ok p => p.2
  | Except.error _ => 0

/-- The record `test` serializes (train.py lines 169-176): keys
`epoch`, `model`, `dataset`, `state_dict`, `acc`, `optimizer`. -/
structure Checkpoint where
  epoch : ℕ
  model : String
  dataset : String
  state_dict : StateDict
  acc : ℚ
  optimizer : Optimizer

/-- The two checkpoint files a run directory can hold:
`latest` models `ckpt.pth.tar`, `best` models `ckpt.best.pth.tar`. -/
structure CkptDir where
  latest : Option Checkpoint
  best : Option Checkpoint

/-- `save_checkpoint` (train.py lines 196-201): unconditionally overwrite
`ckpt.pth.tar` with the state; when `is_best`, additionally copy it to
`ckpt.best.pth.tar`. -/
def save_checkpoint (state : Checkpoint) (is_best : Bool) (dir : CkptDir) : CkptDir :=
  let dirWritten := { dir with latest := some state }
  if is_best then { dirWritten with best := some state } else dirWritten

/-- The best-accuracy update performed by `test` (train.py lines 163-166):
`if top1.avg > best_acc: best_acc = top1.avg`. -/
def new_best (top1_avg best_acc : ℚ) : ℚ :=
  if top1_avg > best_acc then top1_avg else best_acc

/-- What one evaluation epoch leaves behind: the updated global
`best_acc`, the `is_best` flag, and the checkpoint record passed to
`save_checkpoint`. -/
structure TestOutcome where
  best_acc : ℚ
  is_best : Bool
  ckpt : Checkpoint

/-- The bookkeeping tail of `test` (train.py lines 163-176), abstracted
over the epoch's aggregated validation top-1 average `top1_avg`: update
`best_acc` and `is_best`, then build the record to save.  Note the saved
`acc` field is `top1.avg`, the current epoch's average. -/
def test_step (epoch : ℕ) (model dataset : String) (sd : StateDict)
    (opt : Optimizer) (top1_avg best_acc : ℚ) : TestOutcome :=
  { best_acc := new_best top1_avg best_acc
    is_best := decide (top1_avg > best_acc)
    ckpt := { epoch := epoch, model := model, dataset := dataset,
              state_dict := sd, acc := top1_avg, optimizer := opt } }

/-- The successive values of the global `best_acc` across a sequence of
validation epochs whose top-1 averages are `accs`, starting from
`best_acc` (the epoch loop of `__main__` calling `test` each epoch). -/
def bestScan (best_acc : ℚ) : List ℚ → List ℚ
  | [] => []
  | a :: rest => new_best a best_acc :: bestScan (new_best a best_acc) rest

/-- What `torch.load(args.ckpt_path)` can yield according to the resume
branch (train.py lines 338-342): either a raw state dict or a wrapped
dict carrying a `state_dict` key. -/
inductive LoadedCheckpoint
  | raw (sd : StateDict)
  | wrapped (c : Checkpoint)

/-- `sd = checkpoint['state_dict'] if 'state_dict' in checkpoint else checkpoint`
(train.py line 341). -/
def resume_state_dict : LoadedCheckpoint → StateDict
  | LoadedCheckpoint.raw sd => sd
  | LoadedCheckpoint.wrapped c => c.state_dict

/-- The freshly built optimizer of `__main__` (train.py line 352):
`optim.SGD(net.parameters(), lr=args.lr, momentum=0.9, weight_decay=args.wd)`,
one parameter group. -/
noncomputable def initSGD (lr wd : ℝ) : Optimizer :=
  { param_groups := [{ lr := lr, momentum := 0.9, weight_decay := wd }] }

/-- The training-relevant process state right before the epoch loop. -/
structure ProcState where
  net : StateDict
  best_acc : ℚ
  start_epoch : ℕ
  optimizer : Optimizer

/-- The `__main__` setup relevant to resuming (train.py lines 245-246,
336-352): `best_acc = 0`, `start_epoch = 0`, load only the model weights
when a checkpoint path is given, then build a fresh SGD optimizer. -/
noncomputable def resume_setup (init_sd : StateDict)
    (loaded : Option LoadedCheckpoint) (lr wd : ℝ) : ProcState :=
  { net := match loaded with
      | none => init_sd
      | some c => resume_state_dict c
    best_acc := 0
    start_epoch := 0
    optimizer := initSGD lr wd }

/-- The epoch indices the training loop visits:
`range(start_epoch, start_epoch + args.n_epoch)` (train.py line 365). -/
def epoch_range (start_epoch n_epoch : ℕ) : List ℕ :=
  List.range' start_epoch n_epoch

/-- Strip `sep` from the front of `s`, returning the remainder when `sep`
is a prefix of `s`. -/
def dropPre : List Char → List Char → Option (List Char)
  | [], s => some s
  | _ :: _, [] => none
  | c :: cs, d :: ds => if c = d then dropPre cs ds else none

/-- Python `str.split(sep)` on char lists: scan left to right, cutting at
each non-overlapping occurrence of `sep`.  `fuel` only bounds the
recursion depth; callers pass at least the length of the string, which
the scan never exhausts. -/
def splitFuel (sep : List Char) : ℕ → List Char → List Char → List (List Char)
  | _, [], cur => [cur.reverse]
  | 0, s, cur => [cur.reverse ++ s]
  | Nat.succ fuel, c :: cs, cur =>
    match dropPre sep (c :: cs) with
    | some rest => cur.reverse :: splitFuel sep fuel rest []
    | none => splitFuel sep fuel cs (c :: cur)

/-- Python `s.split(sep)` for nonempty `sep`. -/
def pysplit (s sep : String) : List String :=
  (splitFuel sep.data (s.data.length + 1) s.data []).map fun l => String.mk l

/-- Accumulate a decimal digit string into a natural number; any
non-digit character fails the whole parse. -/
def parseDigitsAux : List Char → ℕ → Option ℕ
  | [], acc => some acc
  | c :: cs, acc =>
    if c.isDigit then parseDigitsAux cs (acc * 10 + (c.toNat - 48)) else none

/-- Parse a nonempty decimal digit string. -/
def parseDigits : List Char → Option ℕ
  | [] => none
  | c :: cs => parseDigitsAux (c :: cs) 0

/-- Python `int(s)` on the strings at issue: an optional sign followed by
decimal digits; anything else raises `ValueError`, modelled as `none`.
(Python additionally strips surrounding whitespace and permits grouping
underscores; no claim involves such inputs.) -/
def pyint (s : String) : Option ℤ :=
  match s.data with
  | '-' :: rest => (parseDigits rest).map fun n => -(n : ℤ)
  | '+' :: rest => (parseDigits rest).map fun n => (n : ℤ)
  | cs => (parseDigits cs).map fun n => (n : ℤ)

/-- `int(folder_name.split('-run')[-1])` wrapped in try/except
(train.py lines 224-229): take the text after the last `-run` occurrence
(the whole name when `-run` does not occur) and parse it as an integer;
parse failure means the folder is ignored. -/
def parse_run_id (folder_name : String) : Option ℤ :=
  pyint ((pysplit folder_name "-run").getLastD "")

/-- `get_output_folder` (train.py lines 203-235): scan the subdirectory
names of the parent directory (the `os.listdir` results that pass the
`isdir` filter), keep the largest parsed run number above 0, and allocate
`<parent>/<env_name>-run<max+1>`. -/
def get_output_folder (parent_dir : String) (dir_names : List String)
    (env_name : String) : String :=
  let experiment_id : ℤ := dir_names.foldl
    (fun experiment_id folder_name =>
      match parse_run_id folder_name with
      | some n => if n > experiment_id then n else experiment_id
      | none => experiment_id) 0
  parent_dir ++ "/" ++ env_name ++ "-run" ++ toString (experiment_id + 1)

/-- Scale a sample (a tensor, modelled as a list of rationals) by a
scalar: `lam * x`. -/
def vscale (c : ℚ) (v : List ℚ) : List ℚ :=
  v.map fun a => c * a

/-- Elementwise sum of two samples of equal shape: `t + u`. -/
def vadd (u v : List ℚ) : List ℚ :=
  List.zipWith (fun a b => a + b) u v

/-- Row-gather `x[index, :]` / `y[index]`: pick out the rows of `x`
named by `index` (out-of-range rows yield the default `d`; the script
only ever passes a permutation of the batch indices). -/
def gather (x : List α) (index : List ℕ) (d : α) : List α :=
  index.map fun i => x.getD i d

/-- `mixup_data` (train.py lines 60-73): with mixing parameter `alpha`,
set `lam` to a Beta(alpha, alpha) draw (passed in as `lamDraw`) when
`alpha > 0` and to 1 otherwise; with `index` a random permutation of the
batch indices (also passed in), return
`(lam * x + (1 - lam) * x[index, :], y, y[index], lam)`.
A batch is a list of samples; the `use_cuda` device placement is
irrelevant to the claims and dropped. -/
def mixup_data (x : List (List ℚ)) (y : List ℤ) (alpha : ℚ)
    (lamDraw : ℚ) (index : List ℕ) :
    List (List ℚ) × List ℤ × List ℤ × ℚ :=
  let lam := if alpha > 0 then lamDraw else 1
  let mixed_x := List.zipWith vadd (x.map (vscale lam))
    ((gather x index []).map (vscale (1 - lam)))
  (mixed_x, y, gather y index 0, lam)

/-- `mixup_criterion` (train.py lines 76-77):
`lam * criterion(pred, y_a) + (1 - lam) * criterion(pred, y_b)`. -/
def mixup_criterion (criterion : List ℚ → List ℤ → ℚ)
    (pred : List ℚ) (y_a y_b : List ℤ) (lam : ℚ) : ℚ :=
  lam * criterion pred y_a + (1 - lam) * criterion pred y_b

/-! Helper lemmas. -/

lemma le_new_best (a b : ℚ) : b ≤ new_best a b := by
  unfold new_best
  split
  · exact le_of_lt (by assumption)
  · exact le_rfl

lemma bestScan_chain (accs : List ℚ) (b : ℚ) :
    List.Chain (fun p q => p ≤ q) b (bestScan b accs) := by
  induction accs generalizing b with
  | nil => exact List.Chain.nil
  | cons a rest ih => exact List.Chain.cons (le_new_best a b) (ih (new_best a b))

lemma save_checkpoint_latest (state : Checkpoint) (is_best : Bool) (dir : CkptDir) :
    (save_checkpoint state is_best dir).latest = some state := by
  cases is_best <;> rfl

lemma vadd_vscale_zero (v w : List ℚ) (h : v.length ≤ w.length) :
    vadd (vscale 1 v) (vscale 0 w) = v := by
  induction v generalizing w with
  | nil => rfl
  | cons a as ih =>
    cases w with
    | nil => exact absurd h (by simp)
    | cons b bs =>
      have hle : as.length ≤ bs.length := by simpa using h
      show (1 * a + 0 * b) :: vadd (vscale 1 as) (vscale 0 bs) = a :: as
      rw [ih bs hle, one_mul, zero_mul, add_zero]

lemma zipWith_vadd_id (x L : List (List ℚ)) (d : ℕ)
    (hlen : x.length ≤ L.length)
    (hx : ∀ v ∈ x, v.length = d)
    (hL : ∀ w ∈ L, d ≤ w.length) :
    List.zipWith vadd (x.map (vscale 1)) (L.map (vscale 0)) = x := by
  induction x generalizing L with
  | nil => rfl
  | cons v vs ih =>
    cases L with
    | nil => exact absurd hlen (by simp)
    | cons w ws =>
      have h1 : v.length ≤ w.length := by
        rw [hx v (by simp)]
        exact hL w (by simp)
      have h2 := ih ws (by simpa using hlen)
        (fun u hu => hx u (by simp [hu]))
        (fun u hu => hL u (by simp [hu]))
      show vadd (vscale 1 v) (vscale 0 w)
          :: List.zipWith vadd (vs.map (vscale 1)) (ws.map (vscale 0)) = v :: vs
      rw [vadd_vscale_zero v w h1, h2]

/-! Theorems about the claims. -/

/-- Claim C3: across every sequence of validation epochs the global
best_acc is monotonically non-decreasing; after each validation epoch it
is updated exactly when the epoch's top-1 average strictly exceeds the
previous best, the is_best flag records exactly that strict comparison,
and is_best causes an additional copy to the best checkpoint file while
its absence leaves that file untouched. -/
theorem c3_best_acc_invariant (accs : List ℚ) (b0 : ℚ)
    (epoch : ℕ) (model dataset : String) (sd : StateDict) (opt : Optimizer)
    (top1 best : ℚ) (ck : Checkpoint) (dir : CkptDir) :
    List.Chain (fun p q => p ≤ q) b0 (bestScan b0 accs)
    ∧ best ≤ (test_step epoch model dataset sd opt top1 best).best_acc
    ∧ (test_step epoch model dataset sd opt top1 best).is_best = decide (top1 > best)
    ∧ (test_step epoch model dataset sd opt top1 best).best_acc
        = (if top1 > best then top1 else best)
    ∧ (save_checkpoint ck true dir).best = some ck
    ∧ (save_checkpoint ck false dir).best = dir.best :=
  ⟨bestScan_chain accs b0, le_new_best top1 best, rfl, rfl, rfl, rfl⟩

/-- Claim C2, counterexample: a checkpoint written after an epoch whose
top-1 average (30) is below the running best (50 from the previous
epoch) stores acc = 30, not the best accuracy observed so far. -/
theorem c2_counterexample :
    (test_step 1 "vgg16_bn" "imagenet" [] { param_groups := [] } 30
        (test_step 0 "vgg16_bn" "imagenet" [] { param_groups := [] } 50 0).best_acc).ckpt.acc
      ≠ (test_step 1 "vgg16_bn" "imagenet" [] { param_groups := [] } 30
        (test_step 0 "vgg16_bn" "imagenet" [] { param_groups := [] } 50 0).best_acc).best_acc := by
  decide

/-- Claim C2, amended: every checkpoint record written by the evaluation
epoch contains exactly {epoch index, model name, dataset name, model
weights, accuracy, optimizer state}, where the accuracy field stores the
current epoch's validation top-1 average (which coincides with the best
accuracy so far only when the epoch set a new best). -/
theorem c2_checkpoint_record (epoch : ℕ) (model dataset : String)
    (sd : StateDict) (opt : Optimizer) (top1 best : ℚ) :
    (test_step epoch model dataset sd opt top1 best).ckpt
      = { epoch := epoch, model := model, dataset := dataset,
          state_dict := sd, acc := top1, optimizer := opt } :=
  rfl

/-- Claim C10: resuming loads only the model weights, accepting either a
raw state dict or a wrapped dict with a state_dict key; the epoch,
accuracy and optimizer state in the checkpoint are ignored, so the
resumed process has best_acc 0, start_epoch 0, a fresh SGD optimizer,
and an epoch loop still ranging over 0..n_epoch-1. -/
theorem c10_resume_loads_weights_only (init_sd sd : StateDict)
    (c : Checkpoint) (lr wd : ℝ) (n_epoch : ℕ) :
    resume_setup init_sd (some (LoadedCheckpoint.raw sd)) lr wd
      = { net := sd, best_acc := 0, start_epoch := 0, optimizer := initSGD lr wd }
    ∧ resume_setup init_sd (some (LoadedCheckpoint.wrapped c)) lr wd
      = { net := c.state_dict, best_acc := 0, start_epoch := 0,
          optimizer := initSGD lr wd }
    ∧ epoch_range
        (resume_setup init_sd (some (LoadedCheckpoint.wrapped c)) lr wd).start_epoch
        n_epoch
      = List.range n_epoch :=
  ⟨rfl, rfl, (List.range_eq_range' n_epoch).symm⟩

/-- Claim C1, counterexample: after a validation epoch with top-1
average 50 (a new best, so the recorded best accuracy is 50), resuming
from the saved checkpoint leaves the resumed process with best_acc 0,
different from the recorded best accuracy. -/
theorem c1_counterexample :
    (resume_setup [] (some (LoadedCheckpoint.wrapped
        (test_step 0 "vgg16_bn" "imagenet" [("w", 1)] { param_groups := [] } 50 0).ckpt)) 1 0).best_acc
      ≠ (test_step 0 "vgg16_bn" "imagenet" [("w", 1)] { param_groups := [] } 50 0).best_acc := by
  decide

/-- Claim C1, amended: saving the training state after a validation
epoch and resuming from the produced checkpoint reproduces identical
model weights in the resumed process; the recorded accuracy, however, is
ignored on resume, so the resumed best_acc is 0 rather than the saved
value. -/
theorem c1_round_trip (epoch : ℕ) (model dataset : String)
    (sd init_sd : StateDict) (opt : Optimizer) (top1 best : ℚ)
    (dir : CkptDir) (lr wd : ℝ) :
    (save_checkpoint (test_step epoch model dataset sd opt top1 best).ckpt
        (test_step epoch model dataset sd opt top1 best).is_best dir).latest
      = some (test_step epoch model dataset sd opt top1 best).ckpt
    ∧ (resume_setup init_sd (some (LoadedCheckpoint.wrapped
        (test_step epoch model dataset sd opt top1 best).ckpt)) lr wd).net = sd
    ∧ (resume_setup init_sd (some (LoadedCheckpoint.wrapped
        (test_step epoch model dataset sd opt top1 best).ckpt)) lr wd).best_acc = 0 :=
  ⟨save_checkpoint_latest _ _ dir, rfl, rfl⟩

/-- Claim C8: run-folder allocation on the concrete scenarios the claim
names: existing folders name-run1 and name-run3 yield name-run4, no
existing folders yield name-run1, and a non-numeric suffix name-runX is
ignored rather than causing an error. -/
theorem c8_run_folder_allocation :
    get_output_folder "./logs" ["name-run1", "name-run3"] "name" = "./logs/name-run4"
    ∧ get_output_folder "./logs" [] "name" = "./logs/name-run1"
    ∧ get_output_folder "./logs" ["name-runX"] "name" = "./logs/name-run1" := by
  refine ⟨by decide, by decide, by decide⟩

/-- Claim C9: the run-number scan is not restricted to folders carrying
the given run name: the text after the last -run occurrence is parsed
(the whole name when -run does not occur), so an unrelated folder
other-run9, or a folder named 9, pushes the next allocation for the
name name to name-run10. -/
theorem c9_scan_ignores_name :
    parse_run_id "other-run9" = some 9
    ∧ parse_run_id "7" = some 7
    ∧ parse_run_id "a-run2-run5" = some 5
    ∧ get_output_folder "./logs" ["other-run9"] "name" = "./logs/name-run10"
    ∧ get_output_folder "./logs" ["9"] "name" = "./logs/name-run10" := by
  refine ⟨by decide, by decide, by decide, by decide, by decide⟩

/-- Claim C4: for every epoch and base rate, adjust_learning_rate
computes exactly the spec formula for each supported policy (cos:
half-cosine decay; exp: 0.96 per-epoch exponential decay; fixed:
constant), and the computed value is written into every parameter group
of the optimizer. -/
theorem c4_lr_policy_formulas (lr0 : ℝ) (n_epoch epoch : ℕ) (opt : Optimizer) :
    adjust_learning_rate "cos" lr0 n_epoch opt epoch
      = Except.ok (setLR opt (0.5 * lr0 * (1 + Real.cos (Real.pi * epoch / n_epoch))),
          0.5 * lr0 * (1 + Real.cos (Real.pi * epoch / n_epoch)))
    ∧ adjust_learning_rate "exp" lr0 n_epoch opt epoch
      = Except.ok (setLR opt (lr0 * 0.96 ^ epoch), lr0 * 0.96 ^ epoch)
    ∧ adjust_learning_rate "fixed" lr0 n_epoch opt epoch
      = Except.ok (setLR opt lr0, lr0)
    ∧ ∀ lr : ℝ, (setLR opt lr).param_groups
        = opt.param_groups.map fun g => { g with lr := lr } := by
  refine ⟨by simp [adjust_learning_rate], by simp [adjust_learning_rate],
    by simp [adjust_learning_rate], fun lr => rfl⟩

/-- Claim C5, counterexample: with base learning rate 0 the exp policy
is not strictly decreasing between consecutive epochs (epochs 0 and 1
both give learning rate 0), refuting the claim's unconditional strict
decrease. -/
theorem c5_counterexample :
    ¬ (lrValue (adjust_learning_rate "exp" 0 150 { param_groups := [] } 1)
        < lrValue (adjust_learning_rate "exp" 0 150 { param_groups := [] } 0)) := by
  simp [adjust_learning_rate, lrValue]

/-- Claim C5, amended: for n_epoch > 0, the cos policy returns lr0 at
epoch 0 and 0 at epoch = n_epoch; the exp policy returns lr0 at epoch 0
and, provided lr0 > 0, a strictly smaller value at each successive
epoch; the fixed policy returns the same value at every epoch. -/
theorem c5_scheduler_endpoints (lr0 : ℝ) (n_epoch : ℕ) (opt : Optimizer)
    (hn : n_epoch ≠ 0) :
    lrValue (adjust_learning_rate "cos" lr0 n_epoch opt 0) = lr0
    ∧ lrValue (adjust_learning_rate "cos" lr0 n_epoch opt n_epoch) = 0
    ∧ lrValue (adjust_learning_rate "exp" lr0 n_epoch opt 0) = lr0
    ∧ (0 < lr0 → ∀ epoch : ℕ,
        lrValue (adjust_learning_rate "exp" lr0 n_epoch opt (epoch + 1))
          < lrValue (adjust_learning_rate "exp" lr0 n_epoch opt epoch))
    ∧ (∀ e f : ℕ, lrValue (adjust_learning_rate "fixed" lr0 n_epoch opt e)
        = lrValue (adjust_learning_rate "fixed" lr0 n_epoch opt f)) := by
  refine ⟨?_, ?_, ?_, ?_, ?_⟩
  · simp [adjust_learning_rate, lrValue]
    ring
  · have hval : lrValue (adjust_learning_rate "cos" lr0 n_epoch opt n_epoch)
        = 0.5 * lr0 * (1 + Real.cos (Real.pi * n_epoch / n_epoch)) := by
      simp [adjust_learning_rate, lrValue]
    rw [hval, mul_div_assoc, div_self (Nat.cast_ne_zero.mpr hn), mul_one, Real.cos_pi]
    ring
  · simp [adjust_learning_rate, lrValue]
  · intro hlr epoch
    simp [adjust_learning_rate, lrValue, Nat.div_one]
    have hp : (0.96 : ℝ) ^ (epoch + 1) < 0.96 ^ epoch :=
      pow_lt_pow_right_of_lt_one₀ (by norm_num) (by norm_num) (Nat.lt_succ_self epoch)
    exact mul_lt_mul_of_pos_left hp hlr
  · intro e f
    simp [adjust_learning_rate, lrValue]

/-- Witness for c5_scheduler_endpoints at lr0 = 1, n_epoch = 1: the cos
policy gives 1 at epoch 0 and 0 at epoch 1, and the exp policy strictly
decreases from epoch 0 to epoch 1. -/
theorem c5_witness :
    lrValue (adjust_learning_rate "cos" 1 1 { param_groups := [] } 0) = 1
    ∧ lrValue (adjust_learning_rate "cos" 1 1 { param_groups := [] } 1) = 0
    ∧ lrValue (adjust_learning_rate "exp" 1 1 { param_groups := [] } 1)
        < lrValue (adjust_learning_rate "exp" 1 1 { param_groups := [] } 0) :=
  ⟨(c5_scheduler_endpoints 1 1 { param_groups := [] } (by decide)).1,
   (c5_scheduler_endpoints 1 1 { param_groups := [] } (by decide)).2.1,
   (c5_scheduler_endpoints 1 1 { param_groups := [] } (by decide)).2.2.2.1 (by norm_num) 0⟩

/-- Claim C6: every model name outside the two supported VGG variants
(including the CLI default mobilenet) makes get_model raise, and every
lr_type outside cos/exp/fixed (including step3, advertised by the CLI
help text) makes adjust_learning_rate raise. -/
theorem c6_unsupported_config (model lr_type : String) (lr0 : ℝ)
    (n_epoch epoch : ℕ) (opt : Optimizer)
    (hm1 : model ≠ "vgg16_bn") (hm2 : model ≠ "vgg16_bn_x")
    (ht1 : lr_type ≠ "cos") (ht2 : lr_type ≠ "exp") (ht3 : lr_type ≠ "fixed") :
    get_model model = Except.error ()
    ∧ adjust_learning_rate lr_type lr0 n_epoch opt epoch = Except.error () := by
  constructor
  · simp [get_model, hm1, hm2]
  · simp [adjust_learning_rate, ht1, ht2, ht3]

/-- Witness for c6_unsupported_config at the names the claim singles
out: the default model mobilenet and the advertised policy step3. -/
theorem c6_witness :
    get_model "mobilenet" = Except.error ()
    ∧ adjust_learning_rate "step3" 1 150 { param_groups := [] } 0 = Except.error () :=
  c6_unsupported_config "mobilenet" "step3" 1 150 0 { param_groups := [] }
    (by decide) (by decide) (by decide) (by decide) (by decide)

/-- Claim C7: for alpha at most 0, mixup sets lambda to 1 and returns
the input batch unchanged; for alpha above 0 it returns the convex
combination lam * x + (1 - lam) * x[perm] together with both label sets
(y, y[perm]) and the drawn lambda; and mixup_criterion blends the loss
as lam * L(pred, y) + (1 - lam) * L(pred, y[perm]).  The hypotheses say
that index is a valid batch-index permutation target (same length as
the batch, entries in range) and that all samples share one shape. -/
theorem c7_mixup_semantics (x : List (List ℚ)) (y : List ℤ)
    (alpha lamDraw : ℚ) (index : List ℕ) (d : ℕ)
    (hidx : index.length = x.length)
    (hmem : ∀ i ∈ index, i < x.length)
    (hdim : ∀ v ∈ x, v.length = d) :
    (alpha ≤ 0 → mixup_data x y alpha lamDraw index = (x, y, gather y index 0, 1))
    ∧ (0 < alpha → mixup_data x y alpha lamDraw index
        = (List.zipWith vadd (x.map (vscale lamDraw))
            ((gather x index []).map (vscale (1 - lamDraw))),
           y, gather y index 0, lamDraw))
    ∧ ∀ (criterion : List ℚ → List ℤ → ℚ) (pred : List ℚ)
        (y_a y_b : List ℤ) (lam : ℚ),
        mixup_criterion criterion pred y_a y_b lam
          = lam * criterion pred y_a + (1 - lam) * criterion pred y_b := by
  refine ⟨?_, ?_, fun _ _ _ _ _ => rfl⟩
  · intro ha
    have hlam : ¬ alpha > 0 := not_lt.mpr ha
    show (List.zipWith vadd (x.map (vscale (if alpha > 0 then lamDraw else 1)))
        ((gather x index []).map (vscale (1 - (if alpha > 0 then lamDraw else 1)))), y,
        gather y index 0, (if alpha > 0 then lamDraw else 1)) = (x, y, gather y index 0, 1)
    rw [if_neg hlam, show (1 : ℚ) - 1 = 0 from by norm_num]
    rw [zipWith_vadd_id x (gather x index []) d (by simp [gather, hidx]) hdim ?hL]
    case hL =>
      intro w hw
      rcases List.mem_map.mp hw with ⟨i, hi, rfl⟩
      have hilt : i < x.length := hmem i hi
      rw [List.getD_eq_getElem x [] hilt]
      exact le_of_eq (hdim _ (List.getElem_mem hilt)).symm
  · intro ha
    show (List.zipWith vadd (x.map (vscale (if alpha > 0 then lamDraw else 1)))
        ((gather x index []).map (vscale (1 - (if alpha > 0 then lamDraw else 1)))), y,
        gather y index 0, (if alpha > 0 then lamDraw else 1))
      = (List.zipWith vadd (x.map (vscale lamDraw))
          ((gather x index []).map (vscale (1 - lamDraw))), y, gather y index 0, lamDraw)
    rw [if_pos ha]

/-- Witness for c7_mixup_semantics on a concrete two-sample batch with
the swap permutation and alpha = 0: the blended batch is the original
batch and lambda is 1. -/
theorem c7_witness :
    mixup_data [[1, 2], [3, 4]] [5, 6] 0 7 [1, 0]
      = ([[1, 2], [3, 4]], [5, 6], [6, 5], 1) :=
  (c7_mixup_semantics [[1, 2], [3, 4]] [5, 6] 0 7 [1, 0] 2
    (by decide) (by decide) (by decide)).1 (by decide)
